import Mathlib

/-!
Shallow embedding of the vcard-generator program (src/cpp/CreateCard.cpp)
and verification of its specification claims.

The program is a linear pipeline: load CSV records, compute an EAN-13-style
check digit, emit a barcode raster through the zint library, composite text
and image onto one PDF page through libharu, save the document.

Modelling conventions:
 * C++ `int` arithmetic is modelled by `Int`; the C++ `%` operator (truncated
   remainder) is `Int.tmod`.
 * `std::string` is modelled by `String`; the character code of `number[i]`
   is `Char.toNat` (for the digit inputs all claims range over, signedness of
   `char` is irrelevant, and the stated range properties hold for any
   integer character values).
 * The input file is modelled as the list of its lines wrapped in an
   `Option`-valued filesystem lookup (`none` = the path does not resolve to a
   readable file, which is exactly the `!file.is_open()` branch).
 * The external libraries (libharu, zint) are modelled by an event trace:
   `create_pdf` returns the exact sequence of library/filesystem calls the
   C++ code performs, with their arguments.  The zint symbol configuration
   records every field the program assigns; the `outfile` field is `none`
   because `generate_barcode` never assigns it (the library leaves its own
   default there).  The status returned by `ZBarcode_Encode_and_Print` is an
   oracle parameter (`emitOk`); the C++ code discards it, and accordingly the
   trace does not branch on it.
-/

/-- One CSV record.  The C++ code uses
`std::tuple<std::string, std::string, std::string>`; the spec names the
components `name`, `number`, `additional_info`. -/
structure Record where
  name : String
  number : String
  additional_info : String
deriving DecidableEq, Repr

/-- One `std::getline(ss, field, ',')` call on the remaining characters of an
`istringstream`.  Returns the extracted field, the remaining characters after
the consumed delimiter, and whether the stream is still good afterwards
(`false` once end-of-input is reached without a delimiter, matching
eofbit/failbit behaviour). -/
def cppGetline : List Char → String × List Char × Bool
  | [] => ("", [], false)
  | c :: cs =>
    if c = ',' then ("", cs, true)
    else
      let r := cppGetline cs
      (String.mk (c :: r.1.data), r.2.1, r.2.2)

/-- A `std::getline` on a stream that may already have failed: once the
stream is not good, the sentry fails and the field stays empty. -/
def ss_getline (s : List Char × Bool) : String × (List Char × Bool) :=
  if s.2 then
    let r := cppGetline s.1
    (r.1, (r.2.1, r.2.2))
  else ("", s)

/-- The loop body of `load_data`: three `std::getline(ss, _, ',')` calls on an
`istringstream` over one line, yielding `(name, number, additional_info)`. -/
def parseLine (line : String) : Record :=
  let s0 : List Char × Bool := (line.data, true)
  let p1 := ss_getline s0
  let p2 := ss_getline p1.2
  let p3 := ss_getline p2.2
  { name := p1.1, number := p2.1, additional_info := p3.1 }

/-- `load_data`: opens the CSV file (the lookup returns `none` exactly when
`!file.is_open()`), throws `std::runtime_error("CSV file not found: " + csv_file)`
in that case, otherwise skips the first line (header) and parses each
remaining line into a record. -/
def load_data (csv_file : String) (fsys : String → Option (List String)) :
    Except String (List Record) :=
  match fsys csv_file with
  | none => Except.error ("CSV file not found: " ++ csv_file)
  | some lines => Except.ok ((lines.drop 1).map parseLine)

/-- The accumulator loop of `calculate_check_digit`: walks the characters with
index `i`, adding `number[i] - '0'` to `sum_odd` at even `i` and to `sum_even`
at odd `i`. -/
def sumsAux : List Char → Nat → Int → Int → Int × Int
  | [], _, sum_odd, sum_even => (sum_odd, sum_even)
  | c :: cs, i, sum_odd, sum_even =>
    let digit : Int := (c.toNat : Int) - 48
    if i % 2 = 0 then sumsAux cs (i + 1) (sum_odd + digit) sum_even
    else sumsAux cs (i + 1) sum_odd (sum_even + digit)

/-- `calculate_check_digit`: the weighted modulo-10 checksum.  C++ `%` on
`int` is truncated remainder, hence `Int.tmod`; `std::to_string` is
`toString`. -/
def calculate_check_digit (number : String) : String :=
  let s := sumsAux number.data 0 0 0
  let check_digit : Int := (10 - (s.1 + 3 * s.2).tmod 10).tmod 10
  toString check_digit

/-- zint's `BARCODE_EANX` symbology constant. -/
def BARCODE_EANX : Int := 13

/-- zint's `DATA_MODE` input-mode constant. -/
def DATA_MODE : Int := 0

/-- The fields of `struct zint_symbol` that the program touches.  `outfile`
is `none` when the program never assigns the output path (the library keeps
its own default there). -/
structure ZintSymbol where
  symbology : Int
  input_mode : Int
  option_1 : Int
  outfile : Option String
deriving DecidableEq, Repr

/-- `generate_barcode`: builds the zint symbol configuration and the payload
`number + calculate_check_digit(number)` passed to
`ZBarcode_Encode_and_Print`.  Note that the C++ function receives `filename`
but never uses it: `my_symbol->outfile` is never assigned, so the symbol
configuration handed to the library is independent of `filename`. -/
def generate_barcode (number : String) (filename : String) : ZintSymbol × String :=
  let my_symbol : ZintSymbol :=
    { symbology := BARCODE_EANX, input_mode := DATA_MODE, option_1 := 13,
      outfile := none }
  let full_number := number ++ calculate_check_digit number
  (my_symbol, full_number)

/-- One external call performed by `create_pdf`, with its arguments. -/
inductive Event where
  | addPage : Event
  | setPageSize : Event
  | beginText : Event
  | setFontAndSize (size : Nat) : Event
  | textOut (x y : Nat) (text : String) : Event
  | endText : Event
  | emitBarcode (filenameArg : String) (call : ZintSymbol × String)
      (status : Bool) : Event
  | loadPngImage (path : String) : Event
  | drawImage (x y w h : Nat) : Event
  | fsRemove (path : String) : Event
  | saveToFile (path : String) : Event
deriving DecidableEq, Repr

/-- The loop body of `create_pdf` for one record: draw the name, emit the
barcode (the zint status is recorded but, like the C++ code, never tested),
load the PNG from `barcode_filename`, draw it, delete `barcode_filename`. -/
def record_events (status : Bool) (r : Record) : List Event :=
  let barcode_filename := "barcode_" ++ r.number ++ ".png"
  [Event.beginText,
   Event.setFontAndSize 24,
   Event.textOut 50 750 r.name,
   Event.endText,
   Event.emitBarcode barcode_filename (generate_barcode r.number barcode_filename)
     (status),
   Event.loadPngImage barcode_filename,
   Event.drawImage 50 700 100 50,
   Event.fsRemove barcode_filename]

/-- `create_pdf`: the whole pipeline.  `pdfOk`/`fontOk` model the two
fallible initialisation steps (`HPDF_New`, `HPDF_GetFont`), whose failures
throw; `emitOk i` is the zint status for record `i` (discarded by the code);
`fsys` models the filesystem for `load_data`.  On the non-throwing path the
result is the straight-line event trace: page setup, the per-record loop in
input order, and one final `HPDF_SaveToFile`. -/
def create_pdf (pdfOk : Bool) (fontOk : Bool) (emitOk : Nat → Bool)
    (fsys : String → Option (List String))
    (output_filename csv_file template_path font_path : String) :
    Except String (List Event) :=
  if pdfOk = false then Except.error "Failed to create PDF object"
  else if fontOk = false then Except.error ("Failed to load font: " ++ font_path)
  else
    match load_data csv_file fsys with
    | Except.error e => Except.error e
    | Except.ok data =>
      Except.ok
        ([Event.addPage, Event.setPageSize] ++
         (data.enum.flatMap fun p => record_events (emitOk p.1) p.2) ++
         [Event.saveToFile output_filename])

/-- The value of a character as a decimal digit, `c - '0'`, as the spec reads
it. -/
def dval (c : Char) : Int := (c.toNat : Int) - 48

/-- Spec-side definition: the sum of the digits at even indices (indexing
from 0), which the spec and the code call `sum_odd`. -/
def sum_at_even_indices (s : String) : Int :=
  (((s.data.enumFrom 0).filter fun p => p.1 % 2 == 0).map fun p => dval p.2).sum

/-- Spec-side definition: the sum of the digits at odd indices, which the
spec and the code call `sum_even`. -/
def sum_at_odd_indices (s : String) : Int :=
  (((s.data.enumFrom 0).filter fun p => p.1 % 2 == 1).map fun p => dval p.2).sum

/-- Whether a successful run's trace contains a given event (`False` on the
error path). -/
def resultContains (r : Except String (List Event)) (e : Event) : Prop :=
  match r with
  | Except.ok tr => e ∈ tr
  | Except.error _ => False

instance (r : Except String (List Event)) (e : Event) :
    Decidable (resultContains r e) := by
  unfold resultContains
  match r with
  | Except.ok tr => exact inferInstance
  | Except.error _ => exact inferInstance

/-! ## Helper lemmas about the check-digit calculator -/

lemma sumsAux_eq (cs : List Char) : ∀ (i : Nat) (so se : Int),
    sumsAux cs i so se =
      (so + (((cs.enumFrom i).filter fun p => p.1 % 2 == 0).map fun p => dval p.2).sum,
       se + (((cs.enumFrom i).filter fun p => p.1 % 2 == 1).map fun p => dval p.2).sum) := by
  induction cs with
  | nil => intro i so se; simp [sumsAux]
  | cons c cs ih =>
    intro i so se
    by_cases h : i % 2 = 0
    · have h1 : ¬ (i % 2 = 1) := by omega
      simp only [sumsAux, h, if_pos rfl, List.enumFrom_cons, List.filter_cons, ih,
        List.map_cons, List.sum_cons]
      simp [h, h1, dval, Prod.ext_iff]
      ring
    · have h1 : i % 2 = 1 := by omega
      simp only [sumsAux, List.enumFrom_cons, List.filter_cons, ih,
        List.map_cons, List.sum_cons]
      simp [h, h1, dval, Prod.ext_iff]
      ring

lemma calculate_check_digit_eq (s : String) :
    calculate_check_digit s =
      toString ((10 - (sum_at_even_indices s + 3 * sum_at_odd_indices s).tmod 10).tmod 10) := by
  unfold calculate_check_digit sum_at_even_indices sum_at_odd_indices
  rw [sumsAux_eq]
  simp

lemma check_digit_val_range (X : Int) :
    0 ≤ (10 - X.tmod 10).tmod 10 ∧ (10 - X.tmod 10).tmod 10 < 10 := by
  have h1 : X.tmod 10 < 10 := Int.tmod_lt_of_pos X (by norm_num)
  have h2 : (0 : Int) ≤ 10 - X.tmod 10 := by omega
  rw [Int.tmod_eq_emod h2 (by norm_num)]
  exact ⟨Int.emod_nonneg _ (by norm_num), Int.emod_lt_of_pos _ (by norm_num)⟩

lemma toString_int_digit (d : Int) (h0 : 0 ≤ d) (h9 : d < 10) :
    ∃ c : Char, toString d = String.mk [c] ∧ '0' ≤ c ∧ c ≤ '9' := by
  interval_cases d
  · exact ⟨'0', by decide, by decide, by decide⟩
  · exact ⟨'1', by decide, by decide, by decide⟩
  · exact ⟨'2', by decide, by decide, by decide⟩
  · exact ⟨'3', by decide, by decide, by decide⟩
  · exact ⟨'4', by decide, by decide, by decide⟩
  · exact ⟨'5', by decide, by decide, by decide⟩
  · exact ⟨'6', by decide, by decide, by decide⟩
  · exact ⟨'7', by decide, by decide, by decide⟩
  · exact ⟨'8', by decide, by decide, by decide⟩
  · exact ⟨'9', by decide, by decide, by decide⟩

lemma calculate_check_digit_shape (s : String) :
    ∃ c : Char, calculate_check_digit s = String.mk [c] ∧ '0' ≤ c ∧ c ≤ '9' := by
  unfold calculate_check_digit
  have h := check_digit_val_range ((sumsAux s.data 0 0 0).1 + 3 * (sumsAux s.data 0 0 0).2)
  exact toString_int_digit _ h.1 h.2

lemma isDigit_dval {c : Char} (h : c.isDigit = true) : 0 ≤ dval c ∧ dval c ≤ 9 := by
  unfold Char.isDigit at h
  simp [Char.le_def] at h
  obtain ⟨h1, h2⟩ := h
  have g1 : (48 : UInt32).toNat ≤ c.val.toNat := h1
  have g2 : c.val.toNat ≤ (57 : UInt32).toNat := h2
  have e1 : (48 : UInt32).toNat = 48 := rfl
  have e2 : (57 : UInt32).toNat = 57 := rfl
  unfold dval Char.toNat
  omega

lemma sums_nonneg (s : String) (h : ∀ c ∈ s.data, c.isDigit = true) :
    0 ≤ sum_at_even_indices s ∧ 0 ≤ sum_at_odd_indices s := by
  constructor <;>
  · apply List.sum_nonneg
    intro x hx
    simp only [List.mem_map] at hx
    obtain ⟨p, hp, rfl⟩ := hx
    have hmem : p ∈ s.data.enumFrom 0 := List.mem_of_mem_filter hp
    have hsnd : p.2 ∈ s.data := by
      have := List.mem_map_of_mem Prod.snd hmem
      rwa [List.enumFrom_map_snd] at this
    exact (isDigit_dval (h p.2 hsnd)).1
-- appended portion under test
/-- C1: for every input string of decimal digits, `calculate_check_digit`
returns the one-character decimal string of
`(10 - (sum_odd + 3*sum_even) mod 10) mod 10`, where `sum_odd` is the sum of
the digits at even indices (from 0) and `sum_even` the sum of the digits at
odd indices. -/
theorem check_digit_formula (s : String) (h : ∀ c ∈ s.data, c.isDigit = true) :
    calculate_check_digit s =
      toString ((10 - (sum_at_even_indices s + 3 * sum_at_odd_indices s) % 10) % 10) ∧
    (calculate_check_digit s).length = 1 := by
  have hnn := sums_nonneg s h
  have hX : 0 ≤ sum_at_even_indices s + 3 * sum_at_odd_indices s := by omega
  constructor
  · rw [calculate_check_digit_eq, Int.tmod_eq_emod hX (by norm_num)]
    have hr0 : (0:Int) ≤ (sum_at_even_indices s + 3 * sum_at_odd_indices s) % 10 :=
      Int.emod_nonneg _ (by norm_num)
    have hr1 : (sum_at_even_indices s + 3 * sum_at_odd_indices s) % 10 < 10 :=
      Int.emod_lt_of_pos _ (by norm_num)
    rw [Int.tmod_eq_emod (by omega) (by norm_num)]
  · obtain ⟨c, hc, _, _⟩ := calculate_check_digit_shape s
    rw [hc]
    rfl

/-- Witness for `check_digit_formula` at the concrete digit string
"123456789012". -/
theorem check_digit_formula_witness :
    calculate_check_digit "123456789012" =
      toString ((10 - (sum_at_even_indices "123456789012" +
        3 * sum_at_odd_indices "123456789012") % 10) % 10) ∧
    (calculate_check_digit "123456789012").length = 1 :=
  check_digit_formula "123456789012" (by decide)

/-- C5: `calculate_check_digit "123456789012"` is the one-character string
"8", matching the spec's worked arithmetic: the even-index digit sum is 26,
the odd-index digit sum is 22, `(26 + 66) mod 10 = 2` and `10 - 2 = 8`. -/
theorem check_digit_reference_value :
    calculate_check_digit "123456789012" = "8" ∧
    sum_at_even_indices "123456789012" = 26 ∧
    sum_at_odd_indices "123456789012" = 22 ∧
    (26 + 66) % 10 = 2 ∧ 10 - 2 = 8 := by
  refine ⟨by decide, by decide, by decide, by decide, by decide⟩

/-- C8: for every string of decimal digits, the check digit is a string of
exactly one character, and that character lies between '0' and '9'. -/
theorem check_digit_single_digit (s : String) (h : ∀ c ∈ s.data, c.isDigit = true) :
    (calculate_check_digit s).length = 1 ∧
    ∃ c : Char, calculate_check_digit s = String.mk [c] ∧ '0' ≤ c ∧ c ≤ '9' := by
  obtain ⟨c, hc, hl, hr⟩ := calculate_check_digit_shape s
  exact ⟨by rw [hc]; rfl, c, hc, hl, hr⟩

/-- Witness for `check_digit_single_digit` at "0042". -/
theorem check_digit_single_digit_witness :
    (calculate_check_digit "0042").length = 1 ∧
    ∃ c : Char, calculate_check_digit "0042" = String.mk [c] ∧ '0' ≤ c ∧ c ≤ '9' :=
  check_digit_single_digit "0042" (by decide)

/-- C10: `calculate_check_digit` is total over all strings — for every
string, including the empty string and strings with non-digit characters, it
returns a one-character string between '0' and '9': the final truncated
`(10 - r) % 10` maps even a negative weighted remainder into 0–9. -/
theorem check_digit_total (s : String) :
    (calculate_check_digit s).length = 1 ∧
    ∃ c : Char, calculate_check_digit s = String.mk [c] ∧ '0' ≤ c ∧ c ≤ '9' := by
  obtain ⟨c, hc, hl, hr⟩ := calculate_check_digit_shape s
  exact ⟨by rw [hc]; rfl, c, hc, hl, hr⟩

/-! ## Loader claims -/

/-- A filesystem with one CSV file of a header line plus three record
lines. -/
def fsysFour : String → Option (List String) := fun p =>
  if p = "data.csv" then some ["name,number,info", "x,1,q", "y,2,r", "z,3,s"]
  else none

/-- A filesystem with one CSV file consisting of the header line only. -/
def fsysHeaderOnly : String → Option (List String) := fun p =>
  if p = "data.csv" then some ["name,number,info"] else none

/-- C6: on a 4-line file (header plus 3 record lines) the loader yields
exactly the 3 records in file order; on a header-only file it yields the
empty sequence; the first line is skipped unconditionally in both cases. -/
theorem loader_counts (hdr l1 l2 l3 csv : String)
    (fsys4 fsys1 : String → Option (List String))
    (h4 : fsys4 csv = some [hdr, l1, l2, l3]) (h1 : fsys1 csv = some [hdr]) :
    load_data csv fsys4 = Except.ok [parseLine l1, parseLine l2, parseLine l3] ∧
    load_data csv fsys1 = Except.ok [] := by
  simp [load_data, h4, h1]

/-- Witness for `loader_counts` on concrete four-line and one-line files. -/
theorem loader_counts_witness :
    load_data "data.csv" fsysFour =
      Except.ok [parseLine "x,1,q", parseLine "y,2,r", parseLine "z,3,s"] ∧
    load_data "data.csv" fsysHeaderOnly = Except.ok [] :=
  loader_counts "name,number,info" "x,1,q" "y,2,r" "z,3,s" "data.csv"
    fsysFour fsysHeaderOnly rfl rfl

/-- C7: the loader fails (with the file-not-found error) exactly when the
path does not resolve to a readable file, and the error result carries no
records. -/
theorem loader_missing_file (csv : String) (fsys : String → Option (List String)) :
    ((∃ e, load_data csv fsys = Except.error e) ↔ fsys csv = none) ∧
    (fsys csv = none →
      load_data csv fsys = Except.error ("CSV file not found: " ++ csv)) := by
  cases hf : fsys csv with
  | none => simp [load_data, hf]
  | some lines => simp [load_data, hf]

/-- Witness for `loader_missing_file` at a path that is absent from the
filesystem. -/
theorem loader_missing_file_witness :
    ((∃ e, load_data "missing.csv" fsysFour = Except.error e) ↔
      fsysFour "missing.csv" = none) ∧
    (fsysFour "missing.csv" = none →
      load_data "missing.csv" fsysFour =
        Except.error ("CSV file not found: " ++ "missing.csv")) :=
  loader_missing_file "missing.csv" fsysFour

/-! ## Split semantics (claim C4) -/

/-- C4 counterexample: on the line "a,b,c,d" the third extracted field is
"c" — the text between the second and third commas — not the entire
remainder "c,d" of the line after the second comma. -/
theorem third_field_not_remainder :
    (parseLine "a,b,c,d").additional_info = "c" ∧
    (parseLine "a,b,c,d").additional_info ≠ "c,d" := by
  refine ⟨by decide, by decide⟩

lemma cppGetline_no_comma (a : List Char) (h : ',' ∉ a) :
    cppGetline a = (String.mk a, [], false) := by
  induction a with
  | nil => rfl
  | cons c cs ih =>
    have hc : ¬ (c = ',') := fun hq => h (hq ▸ List.mem_cons_self c cs)
    have hcs : ',' ∉ cs := fun hq => h (List.mem_cons_of_mem c hq)
    simp [cppGetline, hc, ih hcs]

lemma cppGetline_until_comma (a rest : List Char) (h : ',' ∉ a) :
    cppGetline (a ++ ',' :: rest) = (String.mk a, rest, true) := by
  induction a with
  | nil => simp [cppGetline]
  | cons c cs ih =>
    have hc : ¬ (c = ',') := fun hq => h (hq ▸ List.mem_cons_self c cs)
    have hcs : ',' ∉ cs := fun hq => h (List.mem_cons_of_mem c hq)
    simp [cppGetline, hc, ih hcs]

lemma string_mk_data (s : String) : String.mk s.data = s := rfl

lemma ss_getline_good (xs : List Char) :
    ss_getline (xs, true) =
      ((cppGetline xs).1, ((cppGetline xs).2.1, (cppGetline xs).2.2)) := by
  simp [ss_getline]

lemma ss_getline_bad (xs : List Char) :
    ss_getline (xs, false) = ("", (xs, false)) := by
  simp [ss_getline]

lemma parseLine_def (line : String) :
    parseLine line =
      { name := (ss_getline (line.data, true)).1,
        number := (ss_getline (ss_getline (line.data, true)).2).1,
        additional_info :=
          (ss_getline (ss_getline (ss_getline (line.data, true)).2).2).1 } := rfl

/-- C4 amended: each of the three `getline` calls stops at the next comma, so
the loader splits a line on its first three commas: the third field is the
segment between the second and third commas (the remainder of the line only
when no third comma exists), and a line with fewer than two commas yields
empty strings for the missing trailing fields. -/
theorem split_semantics :
    (∀ a b c r : String, ',' ∉ a.data → ',' ∉ b.data → ',' ∉ c.data →
      parseLine (a ++ "," ++ b ++ "," ++ c ++ "," ++ r) =
        { name := a, number := b, additional_info := c }) ∧
    (∀ a b c : String, ',' ∉ a.data → ',' ∉ b.data → ',' ∉ c.data →
      parseLine (a ++ "," ++ b ++ "," ++ c) =
        { name := a, number := b, additional_info := c }) ∧
    (∀ a b : String, ',' ∉ a.data → ',' ∉ b.data →
      parseLine (a ++ "," ++ b) =
        { name := a, number := b, additional_info := "" }) ∧
    (∀ a : String, ',' ∉ a.data →
      parseLine a = { name := a, number := "", additional_info := "" }) := by
  refine ⟨?_, ?_, ?_, ?_⟩
  · intro a b c r ha hb hc
    have hdata : (a ++ "," ++ b ++ "," ++ c ++ "," ++ r).data
        = a.data ++ ',' :: (b.data ++ ',' :: (c.data ++ ',' :: r.data)) := by
      simp [String.data_append]
    rw [parseLine_def, hdata, ss_getline_good, cppGetline_until_comma _ _ ha]
    dsimp only
    rw [ss_getline_good, cppGetline_until_comma _ _ hb]
    dsimp only
    rw [ss_getline_good, cppGetline_until_comma _ _ hc]
  · intro a b c ha hb hc
    have hdata : (a ++ "," ++ b ++ "," ++ c).data
        = a.data ++ ',' :: (b.data ++ ',' :: c.data) := by
      simp [String.data_append]
    rw [parseLine_def, hdata, ss_getline_good, cppGetline_until_comma _ _ ha]
    dsimp only
    rw [ss_getline_good, cppGetline_until_comma _ _ hb]
    dsimp only
    rw [ss_getline_good, cppGetline_no_comma _ hc]
  · intro a b ha hb
    have hdata : (a ++ "," ++ b).data = a.data ++ ',' :: b.data := by
      simp [String.data_append]
    rw [parseLine_def, hdata, ss_getline_good, cppGetline_until_comma _ _ ha]
    dsimp only
    rw [ss_getline_good, cppGetline_no_comma _ hb]
    dsimp only
    rw [ss_getline_bad]
  · intro a ha
    rw [parseLine_def, ss_getline_good, cppGetline_no_comma _ ha]
    dsimp only
    rw [ss_getline_bad]
    dsimp only
    rw [ss_getline_bad]

/-- Witness for `split_semantics`: a line with three commas keeps only the
segment between the second and third commas as its third field. -/
theorem split_semantics_witness :
    parseLine ("x" ++ "," ++ "y" ++ "," ++ "z" ++ "," ++ "p,q") =
      { name := "x", number := "y", additional_info := "z" } :=
  split_semantics.1 "x" "y" "z" "p,q" (by decide) (by decide) (by decide)

/-! ## Pipeline claims -/

/-- C3: `generate_barcode` builds the correct payload
`number ++ calculate_check_digit number` with the EAN symbology selected, but
its effect is entirely independent of the `filename` argument: the zint
symbol's output path is never assigned, so nothing directs the library to
write the raster at the requested path. -/
theorem emitter_ignores_filename (number f1 f2 : String) :
    generate_barcode number f1 = generate_barcode number f2 ∧
    (generate_barcode number f1).1.outfile = none ∧
    (generate_barcode number f1).2 = number ++ calculate_check_digit number ∧
    (generate_barcode number f1).1.symbology = BARCODE_EANX := by
  refine ⟨rfl, rfl, rfl, rfl⟩

/-- Filesystem for the failure-injection scenario: one CSV file of a header
and three records. -/
def fsysThree : String → Option (List String) := fun p =>
  if p = "data.csv" then
    some ["name,number,info", "Alice,111111111111,x", "Bob,222222222222,y",
          "Carol,333333333333,z"]
  else none

/-- Emitter status oracle that fails exactly on the second record
(index 1). -/
def emitFailSecond : Nat → Bool := fun i => i != 1

/-- Emitter status oracle that always succeeds. -/
def emitAllOk : Nat → Bool := fun _ => true

/-- C2 counterexample: with the barcode emitter failing on record 2 of 3,
the run does not abort — record 3 is still processed and the final
document-serialization call is still made, because the emitter's status is
never inspected. -/
theorem no_abort_on_emitter_failure :
    resultContains (create_pdf true true emitFailSecond fsysThree
      "cards.pdf" "data.csv" "template.png" "font.ttf")
      (Event.saveToFile "cards.pdf") ∧
    resultContains (create_pdf true true emitFailSecond fsysThree
      "cards.pdf" "data.csv" "template.png" "font.ttf")
      (Event.textOut 50 750 "Carol") := by
  refine ⟨by decide, by decide⟩

/-- C2 amended: an emitter failure on record 2 of 3 does not abort the run:
the status is discarded, records 2 and 3 are still processed in order,
serialization is still invoked at the end, and the deletion call for
record 1's temporary path has already occurred (inside record 1's block)
before record 2's processing. -/
theorem run_continues_past_emitter_failure (emitOk : Nat → Bool)
    (fsys : String → Option (List String))
    (csv out tmpl fp hdr l1 l2 l3 : String)
    (hf : fsys csv = some [hdr, l1, l2, l3]) (hfail : emitOk 1 = false) :
    create_pdf true true emitOk fsys out csv tmpl fp =
      Except.ok
        ([Event.addPage, Event.setPageSize] ++
         record_events (emitOk 0) (parseLine l1) ++
         record_events false (parseLine l2) ++
         record_events (emitOk 2) (parseLine l3) ++
         [Event.saveToFile out]) := by
  simp [create_pdf, load_data, hf, List.enum, record_events]
  rw [hfail]

/-- Witness for `run_continues_past_emitter_failure` at the concrete
failure-injection scenario. -/
theorem run_continues_past_emitter_failure_witness :
    create_pdf true true emitFailSecond fsysThree
      "cards.pdf" "data.csv" "template.png" "font.ttf" =
      Except.ok
        ([Event.addPage, Event.setPageSize] ++
         record_events (emitFailSecond 0) (parseLine "Alice,111111111111,x") ++
         record_events false (parseLine "Bob,222222222222,y") ++
         record_events (emitFailSecond 2) (parseLine "Carol,333333333333,z") ++
         [Event.saveToFile "cards.pdf"]) :=
  run_continues_past_emitter_failure emitFailSecond fsysThree
    "data.csv" "cards.pdf" "template.png" "font.ttf"
    "name,number,info" "Alice,111111111111,x" "Bob,222222222222,y"
    "Carol,333333333333,z" rfl rfl

/-- Filesystem with one CSV file holding a single record. -/
def fsysSingle : String → Option (List String) := fun p =>
  if p = "data.csv" then some ["name,number,info", "Alice,123456789012,x"]
  else none

/-- C9: evaluated at a single-record input, the loop does call `fs::remove`
on the name derived from the record's number, but the barcode-library call
inside the same iteration was never given that path (the symbol's output
path stays unset), so nothing creates a file at that name during the
iteration. -/
theorem temp_file_never_created :
    resultContains (create_pdf true true emitAllOk fsysSingle
      "cards.pdf" "data.csv" "template.png" "font.ttf")
      (Event.fsRemove "barcode_123456789012.png") ∧
    resultContains (create_pdf true true emitAllOk fsysSingle
      "cards.pdf" "data.csv" "template.png" "font.ttf")
      (Event.emitBarcode "barcode_123456789012.png"
        (generate_barcode "123456789012" "barcode_123456789012.png") true) ∧
    (generate_barcode "123456789012" "barcode_123456789012.png").1.outfile ≠
      some "barcode_123456789012.png" := by
  refine ⟨by decide, by decide, by decide⟩
